import Mathlib

/-!
# Verification of the GrapeGuard live ingestion and reconciliation pipeline

Shallow embedding of the ingestion/service layer of the repository:

* `AnalysisSupabaseService.listUserAnalysesPaged` (persisted-store paged query),
* `LiveMonitoringService.getUnprocessedImages` / `processLatestImages`
  (archive scan and monitor batch processing with the dedup ledger),
* `LiveCameraFeed.loadCloudHistoryPage` / `loadDriveRecent` /
  `detectAndPersistForDriveItems` (two-tier history feed with drive fallback),
* `DetectronDiseaseService` confidence parsing, local bounding-box synthesis,
  disease colors and the total `predict` wrapper.

External effects (HTTP listings, blob fetches, persistence, `Math.random`,
React state) are modelled as explicit inputs; JavaScript `Set`s are modelled
as duplicate-free `List String` values grown by `addId`.
-/

set_option maxRecDepth 10000

/-- A Google Drive image file descriptor as returned by folder listings:
`{id, name, createdTime}` (creation time modelled as a numeric timestamp). -/
structure DriveImage where
  id : String
  name : String
  createdTime : Nat
deriving DecidableEq, Repr

/-- A date folder descriptor from `getDateFolders`. -/
structure DriveFolder where
  id : String
  name : String
deriving DecidableEq, Repr

/-- One page of a paginated folder listing, as returned by
`GoogleDriveService.getImagesFromFolderPage`: the files plus an opaque
`nextPageToken` (`none` when the folder is exhausted).  Tokens are modelled
as page numbers, the initial (absent) token being page `0`. -/
structure DrivePage where
  files : List DriveImage
  nextPageToken : Option Nat
deriving DecidableEq, Repr

/-- A row of the Supabase `detections` table (the fields read back by the
feed), for one user.  `rowType` is the `type` column (`"live"`/`"manual"`);
`originDriveId` is `analysis_result->originDriveId`, the provenance join key
back to the Drive file id (`null` when the record was saved without
`sourceMeta`). -/
structure DetectionRow where
  id : String
  diseaseDetected : Option String
  confidenceScore : Option ℚ
  severity : Option String
  detectedRegions : Option Nat
  createdAt : Nat
  visualizationImage : Option String
  imageUrl : Option String
  modelType : Option String
  rowType : String
  camera : Option Nat
  originDriveId : Option String
deriving DecidableEq, Repr

/-- The item shape `listUserAnalysesPaged` maps each `detections` row to. -/
structure AnalysisItem where
  id : String
  disease : Option String
  confidence : Option ℚ
  severity : Option String
  detectedRegions : Nat
  timestamp : Nat
  visualizationImage : Option String
  originalImage : Option String
  modelType : String
  itemType : String
  camera : Option Nat
deriving DecidableEq, Repr

namespace AnalysisSupabaseService

/-- Row-to-item mapping used by `listUserAnalysesPaged`
(`detection.detected_regions || 0`, `detection.model_type || 'AI (HF Space)'`). -/
def mapRow (r : DetectionRow) : AnalysisItem :=
  { id := r.id
    disease := r.diseaseDetected
    confidence := r.confidenceScore
    severity := r.severity
    detectedRegions := r.detectedRegions.getD 0
    timestamp := r.createdAt
    visualizationImage := r.visualizationImage
    originalImage := r.imageUrl
    modelType := r.modelType.getD "AI (HF Space)"
    itemType := r.rowType
    camera := r.camera }

/-- The rows matching the query filters of `listUserAnalysesPaged`
(`eq('firebase_user_id', …)` is implicit: `rows` already holds one user's
rows; `options.type` adds `eq('type', t)`). -/
def matchingRows (rows : List DetectionRow) (typeFilter : Option String) :
    List DetectionRow :=
  match typeFilter with
  | some t => rows.filter (fun r => r.rowType = t)
  | none => rows

/-- `order('created_at', { ascending: false })`: newest first (stable). -/
def newestFirst (rows : List DetectionRow) : List DetectionRow :=
  rows.insertionSort (fun a b => b.createdAt ≤ a.createdAt)

/-- `AnalysisSupabaseService.listUserAnalysesPaged(uid, pageSize, page, options)`:
computes `from = page*pageSize`, `to = from+pageSize-1`, issues a
newest-first query with the inclusive range `from..to` and an exact count,
maps the rows, and returns `(items, hasMore, total)` with
`hasMore = (to + 1) < count`. -/
def listUserAnalysesPaged (rows : List DetectionRow) (pageSize page : Nat)
    (typeFilter : Option String) : List AnalysisItem × Bool × Nat :=
  let fromIdx := page * pageSize
  let toIdx := fromIdx + pageSize - 1
  let matching := matchingRows rows typeFilter
  let selected := ((newestFirst matching).drop fromIdx).take (toIdx + 1 - fromIdx)
  let count := matching.length
  (selected.map mapRow, decide (toIdx + 1 < count), count)

theorem newestFirst_length (rows : List DetectionRow) :
    (newestFirst rows).length = rows.length := by
  unfold newestFirst
  exact (List.perm_insertionSort _ rows).length_eq

theorem listUserAnalysesPaged_items_eq (rows : List DetectionRow) (ps n : Nat)
    (h : 0 < ps) :
    (listUserAnalysesPaged rows ps n none).1 =
      (((newestFirst rows).drop (n * ps)).take ps).map mapRow := by
  simp only [listUserAnalysesPaged, matchingRows]
  congr 2
  generalize n * ps = a
  omega

theorem listUserAnalysesPaged_hasMore_iff (rows : List DetectionRow) (ps n : Nat)
    (h : 0 < ps) :
    ((listUserAnalysesPaged rows ps n none).2.1 = true) ↔
      (n + 1) * ps < rows.length := by
  simp only [listUserAnalysesPaged, matchingRows, decide_eq_true_eq]
  rw [Nat.succ_mul]
  generalize n * ps = a
  omega

theorem listUserAnalysesPaged_length (rows : List DetectionRow) (ps n : Nat)
    (h : 0 < ps) :
    (listUserAnalysesPaged rows ps n none).1.length =
      min ps (rows.length - n * ps) := by
  rw [listUserAnalysesPaged_items_eq rows ps n h]
  simp [newestFirst_length]

end AnalysisSupabaseService

/-- C4: the paged history query slices the newest-first order at
`[n*pageSize, n*pageSize + pageSize - 1]` and reports
`hasMore ↔ (n+1)*pageSize < total`; with 15 records and pageSize 10, page 0
returns 10 records with `hasMore = true` and page 1 returns 5 records with
`hasMore = false`. -/
theorem listUserAnalysesPaged_slices_newestFirst :
    (∀ (rows : List DetectionRow) (ps n : Nat), 0 < ps →
      (AnalysisSupabaseService.listUserAnalysesPaged rows ps n none).1 =
        (((AnalysisSupabaseService.newestFirst rows).drop (n * ps)).take ps).map
          AnalysisSupabaseService.mapRow ∧
      ((AnalysisSupabaseService.listUserAnalysesPaged rows ps n none).2.1 = true ↔
        (n + 1) * ps < (AnalysisSupabaseService.listUserAnalysesPaged rows ps n none).2.2) ∧
      (AnalysisSupabaseService.listUserAnalysesPaged rows ps n none).2.2 = rows.length) ∧
    (∀ rows : List DetectionRow, rows.length = 15 →
      ((AnalysisSupabaseService.listUserAnalysesPaged rows 10 0 none).1.length = 10 ∧
        (AnalysisSupabaseService.listUserAnalysesPaged rows 10 0 none).2.1 = true) ∧
      ((AnalysisSupabaseService.listUserAnalysesPaged rows 10 1 none).1.length = 5 ∧
        (AnalysisSupabaseService.listUserAnalysesPaged rows 10 1 none).2.1 = false)) := by
  constructor
  · intro rows ps n hps
    refine ⟨AnalysisSupabaseService.listUserAnalysesPaged_items_eq rows ps n hps, ?_, rfl⟩
    exact AnalysisSupabaseService.listUserAnalysesPaged_hasMore_iff rows ps n hps
  · intro rows hlen
    refine ⟨⟨?_, ?_⟩, ?_, ?_⟩
    · rw [AnalysisSupabaseService.listUserAnalysesPaged_length rows 10 0 (by norm_num),
        hlen]
      decide
    · rw [AnalysisSupabaseService.listUserAnalysesPaged_hasMore_iff rows 10 0 (by norm_num),
        hlen]
      norm_num
    · rw [AnalysisSupabaseService.listUserAnalysesPaged_length rows 10 1 (by norm_num),
        hlen]
      decide
    · rw [Bool.eq_false_iff]
      intro hcontra
      have := (AnalysisSupabaseService.listUserAnalysesPaged_hasMore_iff rows 10 1
        (by norm_num)).mp hcontra
      rw [hlen] at this
      norm_num at this

/-- Demo store of `n` distinct rows used to instantiate theorems. -/
def demoRows (n : Nat) : List DetectionRow :=
  (List.range n).map (fun i =>
    { id := toString i
      diseaseDetected := some "Healthy"
      confidenceScore := some 95
      severity := some "None"
      detectedRegions := some 0
      createdAt := 1000 - i
      visualizationImage := none
      imageUrl := none
      modelType := none
      rowType := "live"
      camera := some 1
      originDriveId := none })

/-- Witness for C4 at a concrete 15-row store and `pageSize = 10`. -/
theorem listUserAnalysesPaged_slices_newestFirst_witness :
    (0 < 10 ∧
      (AnalysisSupabaseService.listUserAnalysesPaged (demoRows 15) 10 0 none).2.2 =
        (demoRows 15).length) ∧
    ((demoRows 15).length = 15 ∧
      (AnalysisSupabaseService.listUserAnalysesPaged (demoRows 15) 10 0 none).1.length = 10 ∧
      (AnalysisSupabaseService.listUserAnalysesPaged (demoRows 15) 10 1 none).1.length = 5) := by
  have h15 : (demoRows 15).length = 15 := by simp [demoRows]
  refine ⟨⟨by norm_num,
    (listUserAnalysesPaged_slices_newestFirst.1 (demoRows 15) 10 0 (by norm_num)).2.2⟩,
    h15,
    ((listUserAnalysesPaged_slices_newestFirst.2 (demoRows 15) h15).1).1,
    ((listUserAnalysesPaged_slices_newestFirst.2 (demoRows 15) h15).2).1⟩

/-- JavaScript `Set.add` on an insertion-ordered duplicate-free list. -/
def addId (s : List String) (x : String) : List String :=
  if x ∈ s then s else s ++ [x]

theorem mem_addId {s : List String} {x y : String} :
    y ∈ addId s x ↔ y ∈ s ∨ y = x := by
  unfold addId
  by_cases h : x ∈ s
  · simp only [if_pos h]
    constructor
    · exact Or.inl
    · rintro (hy | rfl)
      · exact hy
      · exact h
  · simp [if_neg h]

/-- Boolean infix test on character lists (the semantics of JavaScript
`String.prototype.includes`). -/
def isPrefixOfB : List Char → List Char → Bool
  | [], _ => true
  | _ :: _, [] => false
  | a :: as, b :: bs => a = b && isPrefixOfB as bs

/-- `s.includes(pat)` over character lists. -/
def containsSeq (pat : List Char) : List Char → Bool
  | [] => isPrefixOfB pat []
  | c :: rest => isPrefixOfB pat (c :: rest) || containsSeq pat rest

/-- JavaScript `str.includes(pat)`. -/
def strContains (s pat : String) : Bool :=
  containsSeq pat.toList s.toList

/-- `str.toLowerCase()`. -/
def jsToLower (s : String) : String :=
  String.mk (s.toList.map Char.toLower)

namespace LiveMonitoringService

/-- Batch size constant (`this.BATCH_SIZE = 5`). -/
def BATCH_SIZE : Nat := 5

/-- The filename-convention test used by `getUnprocessedImages`:
`img.name.toLowerCase().includes('_1.jpg') || img.name.toLowerCase().includes('_2.jpg')`. -/
def hasCameraMarker (name : String) : Bool :=
  strContains (jsToLower name) "_1.jpg" || strContains (jsToLower name) "_2.jpg"

/-- Camera derivation in `processIndividualImage`:
`imageData.name.toLowerCase().includes('_2.jpg') ? 2 : 1`.  (The same
expression appears in `LiveCameraFeed.loadDriveRecent`.) -/
def cameraNumber (name : String) : Nat :=
  if strContains (jsToLower name) "_2.jpg" then 2 else 1

/-- External collaborators of the monitoring service: Drive listing calls
(which may fail) and the persisted processed-ID projection. -/
structure MonEnv where
  dateFolders : Except Unit (List DriveFolder)
  folderImages : String → Except Unit (List DriveImage)
  persistedIds : List String

/-- Ledger seeding in `getUnprocessedImages`: when the in-memory set is
empty, load the persisted processed IDs and add them all. -/
def seedLedger (env : MonEnv) (processed : List String) : List String :=
  if processed.length = 0 then env.persistedIds.foldl addId processed else processed

/-- `createdTime` descending sort
(`unprocessedImages.sort((a, b) => new Date(b.createdTime) - new Date(a.createdTime))`,
stable per ES2019). -/
def sortNewestFirst (l : List DriveImage) : List DriveImage :=
  l.insertionSort (fun a b => b.createdTime ≤ a.createdTime)

/-- The folder loop of `getUnprocessedImages`: walk date folders, filter each
listing against the ledger and the filename convention, accumulate, re-sort
newest first and truncate (`splice(limit)`); a listing failure aborts the
whole scan (propagated to the enclosing catch). -/
def scanFolders (env : MonEnv) (processed : List String) (limit : Nat) :
    List DriveFolder → List DriveImage → Except Unit (List DriveImage)
  | [], acc => .ok acc
  | f :: rest, acc =>
    if limit ≤ acc.length then .ok acc
    else
      match env.folderImages f.id with
      | .error e => .error e
      | .ok imgs =>
        let newImages := imgs.filter
          (fun img => !(processed.contains img.id) && hasCameraMarker img.name)
        let acc2 := sortNewestFirst (acc ++ newImages)
        let acc3 := if limit < acc2.length then acc2.take limit else acc2
        scanFolders env processed limit rest acc3

/-- `LiveMonitoringService.getUnprocessedImages(userId, limit)`: seed the
ledger if empty, list date folders, scan them for unseen convention-matching
images; any listing failure is caught and yields an **empty** array (the
seeded ledger mutation survives).  Returns the possibly-seeded ledger and
the result batch. -/
def getUnprocessedImages (env : MonEnv) (processed : List String) (limit : Nat) :
    List String × List DriveImage :=
  let seeded := seedLedger env processed
  match env.dateFolders with
  | .error _ => (seeded, [])
  | .ok folders =>
    if folders.length = 0 then (seeded, [])
    else
      match scanFolders env seeded limit folders [] with
      | .error _ => (seeded, [])
      | .ok unprocessed => (seeded, unprocessed.take limit)

/-- Mutable state of the service: the in-memory dedup ledger
(`this.processedImages`) and the `busy` guard (`this.isProcessing`). -/
structure MonState where
  processed : List String
  isProcessing : Bool
deriving DecidableEq, Repr

/-- Settlement loop of `processLatestImages`: for each settled item, a
fulfilled result pushes the item and marks its Drive id processed; a
rejected one is only logged. -/
def settleBatch (outcome : String → Bool) (latest : List DriveImage)
    (processed : List String) : List String × List String :=
  latest.foldl
    (fun acc img =>
      if outcome img.id then (addId acc.1 img.id, acc.2 ++ [img.id]) else acc)
    (processed, [])

/-- `LiveMonitoringService.processLatestImages(userId, batchSize)`: skip when
busy; otherwise fetch unprocessed images, process them in parallel
(`Promise.allSettled`), mark the fulfilled ones processed, and clear the
busy flag (`finally`).  `outcome` gives each item's settled status
(fetch + classify + persist pipeline succeeded or not). -/
def processLatestImages (env : MonEnv) (outcome : String → Bool) (s : MonState)
    (batchSize : Nat) : MonState × List String :=
  if s.isProcessing then (s, [])
  else
    let fetched := getUnprocessedImages env s.processed batchSize
    let settled := settleBatch outcome fetched.2 fetched.1
    ({ processed := settled.1, isProcessing := false }, settled.2)

end LiveMonitoringService

namespace LiveMonitoringService

/-- Drive ids of a list of images. -/
def imgIds (l : List DriveImage) : List String := l.map (·.id)


/-- All Drive ids listed (successfully) across a list of folders. -/
def folderIdsOf (env : MonEnv) (folders : List DriveFolder) : List String :=
  folders.flatMap (fun f =>
    match env.folderImages f.id with
    | .ok imgs => imgs.map (·.id)
    | .error _ => [])

theorem scanFolders_invariant (env : MonEnv) (processed : List String) (limit : Nat)
    (Q : DriveImage → Prop)
    (hQ : ∀ img, processed.contains img.id = false →
      hasCameraMarker img.name = true → Q img) :
    ∀ (folders : List DriveFolder) (acc : List DriveImage), (∀ x ∈ acc, Q x) →
      ∀ r, scanFolders env processed limit folders acc = .ok r → ∀ x ∈ r, Q x := by
  intro folders
  induction folders with
  | nil =>
    intro acc hacc r hr x hx
    simp only [scanFolders] at hr
    cases hr
    exact hacc x hx
  | cons f rest ih =>
    intro acc hacc r hr x hx
    simp only [scanFolders] at hr
    by_cases hbreak : limit ≤ acc.length
    · rw [if_pos hbreak] at hr
      cases hr
      exact hacc x hx
    · rw [if_neg hbreak] at hr
      cases hfi : env.folderImages f.id with
      | error e => rw [hfi] at hr; cases hr
      | ok imgs =>
        rw [hfi] at hr
        refine ih _ ?_ r hr x hx
        intro y hy
        have hy2 : y ∈ sortNewestFirst (acc ++ imgs.filter
            (fun img => !(processed.contains img.id) && hasCameraMarker img.name)) := by
          by_cases hl : limit < (sortNewestFirst (acc ++ imgs.filter
              (fun img => !(processed.contains img.id) && hasCameraMarker img.name))).length
          · rw [if_pos hl] at hy
            exact (List.take_sublist _ _).mem hy
          · rw [if_neg hl] at hy
            exact hy
        have hy3 : y ∈ acc ++ imgs.filter
            (fun img => !(processed.contains img.id) && hasCameraMarker img.name) :=
          (List.perm_insertionSort _ _).mem_iff.mp hy2
        rcases List.mem_append.mp hy3 with hya | hyf
        · exact hacc y hya
        · have := (List.mem_filter.mp hyf).2
          simp only [Bool.and_eq_true, Bool.not_eq_true'] at this
          exact hQ y this.1 this.2

theorem scanFolders_nodup (env : MonEnv) (processed : List String) (limit : Nat) :
    ∀ (folders : List DriveFolder) (acc : List DriveImage),
      (imgIds acc ++ folderIdsOf env folders).Nodup →
      ∀ r, scanFolders env processed limit folders acc = .ok r → (imgIds r).Nodup := by
  intro folders
  induction folders with
  | nil =>
    intro acc hacc r hr
    simp only [scanFolders] at hr
    cases hr
    exact hacc.of_append_left
  | cons f rest ih =>
    intro acc hacc r hr
    simp only [scanFolders] at hr
    by_cases hbreak : limit ≤ acc.length
    · rw [if_pos hbreak] at hr
      cases hr
      exact hacc.of_append_left
    · rw [if_neg hbreak] at hr
      cases hfi : env.folderImages f.id with
      | error e => rw [hfi] at hr; cases hr
      | ok imgs =>
        rw [hfi] at hr
        refine ih _ ?_ r hr
        have hexp : folderIdsOf env (f :: rest) =
            imgs.map (·.id) ++ folderIdsOf env rest := by
          simp [folderIdsOf, hfi]
        rw [hexp] at hacc
        set newImages := imgs.filter
          (fun img => !(processed.contains img.id) && hasCameraMarker img.name) with hni
        have h1 : List.Sublist (imgIds newImages) (imgs.map (·.id)) :=
          List.Sublist.map _ (List.filter_sublist imgs)
        have h2 : (imgIds (acc ++ newImages) ++ folderIdsOf env rest).Nodup := by
          have hs : List.Sublist (imgIds (acc ++ newImages) ++ folderIdsOf env rest)
              (imgIds acc ++ (imgs.map (·.id) ++ folderIdsOf env rest)) := by
            rw [show imgIds (acc ++ newImages) = imgIds acc ++ imgIds newImages from
              List.map_append _ _ _, List.append_assoc]
            exact (List.append_sublist_append_left _).mpr
              (h1.append_right (folderIdsOf env rest))
          exact hacc.sublist hs
        have h3 : (imgIds (sortNewestFirst (acc ++ newImages)) ++
            folderIdsOf env rest).Nodup := by
          have hp : (imgIds (sortNewestFirst (acc ++ newImages)) ++
              folderIdsOf env rest).Perm
              (imgIds (acc ++ newImages) ++ folderIdsOf env rest) :=
            ((List.perm_insertionSort _ _).map _).append_right _
          exact hp.nodup_iff.mpr h2
        by_cases hl : limit < (sortNewestFirst (acc ++ newImages)).length
        · rw [if_pos hl]
          refine h3.sublist ?_
          exact (List.Sublist.map _ (List.take_sublist _ _)).append_right _
        · rw [if_neg hl]
          exact h3

theorem getUnprocessedImages_fst (env : MonEnv) (processed : List String)
    (limit : Nat) :
    (getUnprocessedImages env processed limit).1 = seedLedger env processed := by
  cases hdf : env.dateFolders with
  | error e => simp [getUnprocessedImages, hdf]
  | ok folders =>
    by_cases hempty : folders.length = 0
    · simp [getUnprocessedImages, hdf, hempty]
    · cases hscan : scanFolders env (seedLedger env processed) limit folders [] with
      | error e => simp [getUnprocessedImages, hdf, hempty, hscan]
      | ok unprocessed => simp [getUnprocessedImages, hdf, hempty, hscan]

theorem getUnprocessedImages_fresh (env : MonEnv) (processed : List String)
    (limit : Nat) :
    ∀ x ∈ (getUnprocessedImages env processed limit).2,
      (getUnprocessedImages env processed limit).1.contains x.id = false := by
  intro x hx
  rw [getUnprocessedImages_fst]
  cases hdf : env.dateFolders with
  | error e => simp [getUnprocessedImages, hdf] at hx
  | ok folders =>
    by_cases hempty : folders.length = 0
    · simp [getUnprocessedImages, hdf, hempty] at hx
    · cases hscan : scanFolders env (seedLedger env processed) limit folders [] with
      | error e => simp [getUnprocessedImages, hdf, hempty, hscan] at hx
      | ok unprocessed =>
        simp only [getUnprocessedImages, hdf, hempty, if_false, hscan] at hx
        have hx2 : x ∈ unprocessed := (List.take_sublist _ _).mem hx
        exact scanFolders_invariant env (seedLedger env processed) limit
          (fun img => (seedLedger env processed).contains img.id = false)
          (fun img h1 _ => h1) folders [] (by simp) unprocessed hscan x hx2

theorem getUnprocessedImages_marker (env : MonEnv) (processed : List String)
    (limit : Nat) :
    ∀ x ∈ (getUnprocessedImages env processed limit).2,
      hasCameraMarker x.name = true := by
  intro x hx
  cases hdf : env.dateFolders with
  | error e => simp [getUnprocessedImages, hdf] at hx
  | ok folders =>
    by_cases hempty : folders.length = 0
    · simp [getUnprocessedImages, hdf, hempty] at hx
    · cases hscan : scanFolders env (seedLedger env processed) limit folders [] with
      | error e => simp [getUnprocessedImages, hdf, hempty, hscan] at hx
      | ok unprocessed =>
        simp only [getUnprocessedImages, hdf, hempty, if_false, hscan] at hx
        have hx2 : x ∈ unprocessed := (List.take_sublist _ _).mem hx
        exact scanFolders_invariant env (seedLedger env processed) limit
          (fun img => hasCameraMarker img.name = true)
          (fun img _ h2 => h2) folders [] (by simp) unprocessed hscan x hx2

theorem getUnprocessedImages_nodup (env : MonEnv) (processed : List String)
    (limit : Nat)
    (hnd : ∀ folders, env.dateFolders = .ok folders →
      (folderIdsOf env folders).Nodup) :
    (imgIds (getUnprocessedImages env processed limit).2).Nodup := by
  cases hdf : env.dateFolders with
  | error e => simp [getUnprocessedImages, hdf, imgIds]
  | ok folders =>
    by_cases hempty : folders.length = 0
    · simp [getUnprocessedImages, hdf, hempty, imgIds]
    · cases hscan : scanFolders env (seedLedger env processed) limit folders [] with
      | error e => simp [getUnprocessedImages, hdf, hempty, hscan, imgIds]
      | ok unprocessed =>
        simp only [getUnprocessedImages, hdf, hempty, if_false, hscan]
        have hn : (imgIds unprocessed).Nodup :=
          scanFolders_nodup env (seedLedger env processed) limit folders []
            (by simpa [imgIds] using hnd folders hdf) unprocessed hscan
        exact hn.sublist (List.Sublist.map _ (List.take_sublist _ _))

end LiveMonitoringService

namespace LiveMonitoringService

/-- Final ledger contents after the settlement loop (ignoring the result
list), as a plain fold. -/
def ledgerAfter (outcome : String → Bool) (latest : List DriveImage)
    (processed : List String) : List String :=
  latest.foldl (fun q img => if outcome img.id then addId q img.id else q) processed

theorem settleBatch_fst_eq (outcome : String → Bool) :
    ∀ (latest : List DriveImage) (p res : List String),
      (latest.foldl
        (fun acc img =>
          if outcome img.id then (addId acc.1 img.id, acc.2 ++ [img.id]) else acc)
        (p, res)).1 = ledgerAfter outcome latest p := by
  intro latest
  induction latest with
  | nil => intro p res; rfl
  | cons img rest ih =>
    intro p res
    simp only [List.foldl_cons, ledgerAfter]
    by_cases h : outcome img.id
    · rw [if_pos h, if_pos h]
      exact ih _ _
    · rw [if_neg h, if_neg h]
      exact ih _ _

theorem mem_ledgerAfter (outcome : String → Bool) :
    ∀ (latest : List DriveImage) (p : List String) (y : String),
      y ∈ ledgerAfter outcome latest p ↔
        y ∈ p ∨ ∃ img ∈ latest, outcome img.id = true ∧ img.id = y := by
  intro latest
  induction latest with
  | nil => intro p y; simp [ledgerAfter]
  | cons img rest ih =>
    intro p y
    simp only [ledgerAfter, List.foldl_cons]
    by_cases h : outcome img.id
    · rw [if_pos h]
      rw [show (rest.foldl (fun q i => if outcome i.id then addId q i.id else q)
        (addId p img.id)) = ledgerAfter outcome rest (addId p img.id) from rfl, ih]
      simp only [mem_addId, List.mem_cons]
      constructor
      · rintro ((hp | rfl) | ⟨i, hi, ho, rfl⟩)
        · exact Or.inl hp
        · exact Or.inr ⟨img, Or.inl rfl, h, rfl⟩
        · exact Or.inr ⟨i, Or.inr hi, ho, rfl⟩
      · rintro (hp | ⟨i, (rfl | hi), ho, rfl⟩)
        · exact Or.inl (Or.inl hp)
        · exact Or.inl (Or.inr rfl)
        · exact Or.inr ⟨i, hi, ho, rfl⟩
    · rw [if_neg h]
      rw [show (rest.foldl (fun q i => if outcome i.id then addId q i.id else q) p)
        = ledgerAfter outcome rest p from rfl, ih]
      simp only [List.mem_cons]
      constructor
      · rintro (hp | ⟨i, hi, ho, rfl⟩)
        · exact Or.inl hp
        · exact Or.inr ⟨i, Or.inr hi, ho, rfl⟩
      · rintro (hp | ⟨i, (rfl | hi), ho, rfl⟩)
        · exact Or.inl hp
        · exact absurd ho (by simp [h])
        · exact Or.inr ⟨i, hi, ho, rfl⟩

theorem processLatestImages_processed_eq (env : MonEnv) (outcome : String → Bool)
    (s : MonState) (n : Nat) (h : s.isProcessing = false) :
    (processLatestImages env outcome s n).1.processed =
      ledgerAfter outcome (getUnprocessedImages env s.processed n).2
        (getUnprocessedImages env s.processed n).1 := by
  unfold processLatestImages
  rw [if_neg (by simp [h])]
  exact settleBatch_fst_eq outcome _ _ _

/-- A trivial environment used to instantiate witness statements. -/
def demoEnv : MonEnv :=
  { dateFolders := .ok []
    folderImages := fun _ => .ok []
    persistedIds := [] }

end LiveMonitoringService

/-- C6: an invocation of the batch processor arriving while the busy flag is
set is skipped entirely — it returns an empty result and leaves the whole
service state (including the ledger) unchanged — and any run that actually
starts clears the busy flag when it settles. -/
theorem processLatestImages_no_overlap :
    (∀ (env : LiveMonitoringService.MonEnv) (outcome : String → Bool)
        (s : LiveMonitoringService.MonState) (n : Nat),
      s.isProcessing = true →
        LiveMonitoringService.processLatestImages env outcome s n = (s, [])) ∧
    (∀ (env : LiveMonitoringService.MonEnv) (outcome : String → Bool)
        (s : LiveMonitoringService.MonState) (n : Nat),
      s.isProcessing = false →
        (LiveMonitoringService.processLatestImages env outcome s n).1.isProcessing
          = false) := by
  constructor
  · intro env outcome s n h
    unfold LiveMonitoringService.processLatestImages
    rw [if_pos (by simp [h])]
  · intro env outcome s n h
    unfold LiveMonitoringService.processLatestImages
    rw [if_neg (by simp [h])]

/-- Witness for C6 at a concrete busy state and a concrete idle state. -/
theorem processLatestImages_no_overlap_witness :
    ((⟨["a"], true⟩ : LiveMonitoringService.MonState).isProcessing = true ∧
      LiveMonitoringService.processLatestImages LiveMonitoringService.demoEnv
        (fun _ => true) ⟨["a"], true⟩ 5 = (⟨["a"], true⟩, [])) ∧
    ((⟨[], false⟩ : LiveMonitoringService.MonState).isProcessing = false ∧
      (LiveMonitoringService.processLatestImages LiveMonitoringService.demoEnv
        (fun _ => true) ⟨[], false⟩ 5).1.isProcessing = false) :=
  ⟨⟨rfl, processLatestImages_no_overlap.1 LiveMonitoringService.demoEnv
      (fun _ => true) ⟨["a"], true⟩ 5 rfl⟩,
    rfl, processLatestImages_no_overlap.2 LiveMonitoringService.demoEnv
      (fun _ => true) ⟨[], false⟩ 5 rfl⟩

/-- A convention-matching Drive image used in concrete scenarios. -/
def imgA : DriveImage := { id := "a1", name := "20250101-120000_1.jpg", createdTime := 100 }

/-- Environment whose first folder lists one fresh matching image and whose
second folder's listing call fails. -/
def envC5 : LiveMonitoringService.MonEnv :=
  { dateFolders := .ok [⟨"f1", "2025-01-02"⟩, ⟨"f2", "2025-01-01"⟩]
    folderImages := fun fid => if fid = "f1" then .ok [imgA] else .error ()
    persistedIds := [] }

/-- C5 counterexample: with one descriptor already collected from the first
folder, a listing failure on the second folder makes `getUnprocessedImages`
return an **empty** batch, not the partial batch `[imgA]` that had been
collected before the failure. -/
theorem getUnprocessedImages_failure_drops_partial_batch :
    LiveMonitoringService.scanFolders envC5 [] 5 [⟨"f1", "2025-01-02"⟩] [] =
      .ok [imgA] ∧
    LiveMonitoringService.scanFolders envC5 [] 5
      [⟨"f1", "2025-01-02"⟩, ⟨"f2", "2025-01-01"⟩] [] = .error () ∧
    LiveMonitoringService.getUnprocessedImages envC5 [] 5 = ([], []) := by
  refine ⟨?_, ?_, ?_⟩ <;> rfl

/-- C5 amended: a listing failure mid-scan aborts the whole scan; the call
returns an empty array (partial progress discarded) and the ledger is left
exactly as seeded, so nothing is marked processed and a later retry (which
restarts from the head of the folder list, there being no persisted cursor)
can rediscover the same items. -/
theorem getUnprocessedImages_failure_aborts_scan
    (env : LiveMonitoringService.MonEnv) (processed : List String) (limit : Nat)
    (folders : List DriveFolder)
    (hdf : env.dateFolders = .ok folders) (hne : folders.length ≠ 0)
    (hscan : LiveMonitoringService.scanFolders env
      (LiveMonitoringService.seedLedger env processed) limit folders [] =
      .error ()) :
    LiveMonitoringService.getUnprocessedImages env processed limit =
      (LiveMonitoringService.seedLedger env processed, []) := by
  simp [LiveMonitoringService.getUnprocessedImages, hdf, hne, hscan]

/-- Witness for the amended C5 statement at the concrete failing environment. -/
theorem getUnprocessedImages_failure_aborts_scan_witness :
    (envC5.dateFolders = .ok [⟨"f1", "2025-01-02"⟩, ⟨"f2", "2025-01-01"⟩] ∧
      ([⟨"f1", "2025-01-02"⟩, ⟨"f2", "2025-01-01"⟩] : List DriveFolder).length ≠ 0 ∧
      LiveMonitoringService.scanFolders envC5
        (LiveMonitoringService.seedLedger envC5 []) 5
        [⟨"f1", "2025-01-02"⟩, ⟨"f2", "2025-01-01"⟩] [] = .error ()) ∧
    LiveMonitoringService.getUnprocessedImages envC5 [] 5 =
      (LiveMonitoringService.seedLedger envC5 [], []) :=
  ⟨⟨rfl, by decide, rfl⟩,
    getUnprocessedImages_failure_aborts_scan envC5 [] 5
      [⟨"f1", "2025-01-02"⟩, ⟨"f2", "2025-01-01"⟩] rfl (by decide) rfl⟩

namespace DetectronDiseaseService

/-- The detection result record returned by `predict` (UI-facing fields;
`marathi`, `recommendations` and the `detectionDetails` metadata blob are
carried along verbatim in the source and affect no control flow, so they are
omitted here). -/
structure DetResult where
  disease : String
  confidence : ℚ
  severity : String
  detectedRegions : Nat
  healthyArea : ℚ
  visualizationImage : Option String
deriving DecidableEq, Repr

/-- The "last resort" result built in `predict`'s outer catch. -/
def errorResult : DetResult :=
  { disease := "Detection Error"
    confidence := 0
    severity := "Unknown"
    detectedRegions := 0
    healthyArea := 0
    visualizationImage := none }

/-- `try { x } catch (e) { handler(e) }` over `Except`. -/
def tryCatch {α : Type} (x : Except String α) (handler : String → Except String α) :
    Except String α :=
  match x with
  | .ok a => .ok a
  | .error e => handler e

/-- Body of `DetectronDiseaseService.predict` after preprocessing (which
only ever resolves): dispatch between the HF-Space path (with its inner
catch that loads and runs the fallback service) and the fallback path, or
throw when no service is available.  The outcomes of the three awaited
sub-operations are explicit inputs. -/
def predictBody (isModelLoaded hasFallbackService : Bool)
    (det : Except String DetResult)
    (fallbackLoad : Except String Unit)
    (fallbackPredict : Except String DetResult) : Except String DetResult :=
  if isModelLoaded && !hasFallbackService then
    tryCatch det (fun _ =>
      match fallbackLoad with
      | .ok _ => fallbackPredict
      | .error e => .error e)
  else if hasFallbackService then
    fallbackPredict
  else
    .error "No detection service available"

/-- `DetectronDiseaseService.predict`: the body wrapped in the outer
try/catch whose handler returns `errorResult`. -/
def predict (isModelLoaded hasFallbackService : Bool)
    (det : Except String DetResult)
    (fallbackLoad : Except String Unit)
    (fallbackPredict : Except String DetResult) : Except String DetResult :=
  tryCatch (predictBody isModelLoaded hasFallbackService det fallbackLoad
    fallbackPredict) (fun _ => .ok errorResult)

/-- Did an `Except` computation succeed? -/
def exceptOk {ε α : Type} : Except ε α → Bool
  | .ok _ => true
  | .error _ => false

/-- Every sub-operation that `predict` could lean on has failed (or no
service was available at all). -/
def totalFailure (isModelLoaded hasFallbackService : Bool)
    (det : Except String DetResult) (fallbackLoad : Except String Unit)
    (fallbackPredict : Except String DetResult) : Prop :=
  (isModelLoaded = true ∧ hasFallbackService = false ∧ exceptOk det = false ∧
    (exceptOk fallbackLoad = false ∨ exceptOk fallbackPredict = false)) ∨
  (hasFallbackService = true ∧ exceptOk fallbackPredict = false) ∨
  (isModelLoaded = false ∧ hasFallbackService = false)

end DetectronDiseaseService

/-- C10: `predict` is total — whatever the outcomes of the remote inference,
the fallback load and the fallback prediction, it resolves (never rejects);
and on total failure it resolves exactly to the well-formed error result
with disease "Detection Error", confidence 0, 0 detected regions and a null
visualization. -/
theorem predict_never_rejects :
    (∀ (mL hF : Bool) (det : Except String DetectronDiseaseService.DetResult)
        (fbL : Except String Unit)
        (fbP : Except String DetectronDiseaseService.DetResult),
      ∃ r, DetectronDiseaseService.predict mL hF det fbL fbP = .ok r) ∧
    (∀ (mL hF : Bool) (det : Except String DetectronDiseaseService.DetResult)
        (fbL : Except String Unit)
        (fbP : Except String DetectronDiseaseService.DetResult),
      DetectronDiseaseService.totalFailure mL hF det fbL fbP →
        DetectronDiseaseService.predict mL hF det fbL fbP =
          .ok DetectronDiseaseService.errorResult ∧
        DetectronDiseaseService.errorResult.disease = "Detection Error" ∧
        DetectronDiseaseService.errorResult.confidence = 0 ∧
        DetectronDiseaseService.errorResult.detectedRegions = 0 ∧
        DetectronDiseaseService.errorResult.visualizationImage = none) := by
  constructor
  · intro mL hF det fbL fbP
    cases mL <;> cases hF <;> cases det <;> cases fbL <;> cases fbP <;>
      simp [DetectronDiseaseService.predict, DetectronDiseaseService.predictBody,
        DetectronDiseaseService.tryCatch]
  · intro mL hF det fbL fbP hfail
    refine ⟨?_, rfl, rfl, rfl, rfl⟩
    cases mL <;> cases hF <;> cases det <;> cases fbL <;> cases fbP <;>
      simp_all [DetectronDiseaseService.predict, DetectronDiseaseService.predictBody,
        DetectronDiseaseService.tryCatch, DetectronDiseaseService.totalFailure,
        DetectronDiseaseService.exceptOk]

/-- Witness for C10: every sub-operation failing at a concrete input yields
the error result. -/
theorem predict_never_rejects_witness :
    DetectronDiseaseService.totalFailure true false (.error "net down")
      (.error "import failed") (.error "fallback crashed") ∧
    DetectronDiseaseService.predict true false (.error "net down")
      (.error "import failed") (.error "fallback crashed") =
      .ok DetectronDiseaseService.errorResult :=
  ⟨Or.inl ⟨rfl, rfl, rfl, Or.inl rfl⟩,
    (predict_never_rejects.2 true false (.error "net down") (.error "import failed")
      (.error "fallback crashed") (Or.inl ⟨rfl, rfl, rfl, Or.inl rfl⟩)).1⟩

namespace DetectronDiseaseService

/-- A synthesized bounding box. -/
structure BBox where
  x : ℚ
  y : ℚ
  width : ℚ
  height : ℚ
deriving DecidableEq, Repr

/-- `DetectronDiseaseService.generateLocalBoundingBoxes(imageWidth,
imageHeight, diseaseInfo, confidence)`: no boxes when
`diseaseInfo.severity === 'None'`; otherwise
`min(floor(random()*3)+1, 3)` boxes, each sized
`width = imageWidth * (0.2 + random()*0.3)`,
`height = imageHeight * (0.15 + random()*0.25)` and placed at
`x = random()*(imageWidth - width)`, `y = random()*(imageHeight - height)`.
The successive `Math.random()` draws are modelled as the stream `rnd`
consumed in call order. -/
def generateLocalBoundingBoxes (rnd : Nat → ℚ) (imageWidth imageHeight : ℚ)
    (severity : String) : List BBox :=
  if severity = "None" then []
  else
    let numBoxes := min ((rnd 0 * 3).floor.toNat + 1) 3
    (List.range numBoxes).map (fun i =>
      let boxWidth := imageWidth * (2 / 10 + rnd (4 * i + 1) * (3 / 10))
      let boxHeight := imageHeight * (15 / 100 + rnd (4 * i + 2) * (25 / 100))
      { x := rnd (4 * i + 3) * (imageWidth - boxWidth)
        y := rnd (4 * i + 4) * (imageHeight - boxHeight)
        width := boxWidth
        height := boxHeight })

/-- `DetectronDiseaseService.getDiseaseColor(diseaseName)`: fixed color
table keyed by class name, defaulting to gray. -/
def getDiseaseColor (diseaseName : String) : String :=
  if diseaseName = "Karpa (Anthracnose)" then "#dc2626"
  else if diseaseName = "Bhuri (Powdery Mildew)" then "#f59e0b"
  else if diseaseName = "Davnya (Downy Mildew)" then "#8b5cf6"
  else if diseaseName = "Bokadlela (Borer Infestation)" then "#ef4444"
  else if diseaseName = "Healthy" then "#10b981"
  else "#6b7280"

end DetectronDiseaseService

/-- C8: for a non-healthy detection on a `W × H` frame the fallback
visualization draws between 1 and 3 boxes, each with width and height
between 15% and 50% of the corresponding frame dimension and lying entirely
inside the frame (`x ∈ [0, W - width]`, `y ∈ [0, H - height]`); a healthy
detection (severity "None") draws zero boxes; each box is stroked/labelled
with the fixed per-class color of `getDiseaseColor`. -/
theorem generateLocalBoundingBoxes_inside_frame (rnd : Nat → ℚ) (W H : ℚ)
    (severity : String) (hrnd : ∀ i, 0 ≤ rnd i ∧ rnd i < 1)
    (hW : 0 < W) (hH : 0 < H) :
    (severity = "None" →
      DetectronDiseaseService.generateLocalBoundingBoxes rnd W H severity = []) ∧
    (severity ≠ "None" →
      1 ≤ (DetectronDiseaseService.generateLocalBoundingBoxes rnd W H severity).length ∧
      (DetectronDiseaseService.generateLocalBoundingBoxes rnd W H severity).length ≤ 3 ∧
      ∀ b ∈ DetectronDiseaseService.generateLocalBoundingBoxes rnd W H severity,
        15 / 100 * W ≤ b.width ∧ b.width ≤ 50 / 100 * W ∧
        15 / 100 * H ≤ b.height ∧ b.height ≤ 50 / 100 * H ∧
        0 ≤ b.x ∧ b.x ≤ W - b.width ∧ 0 ≤ b.y ∧ b.y ≤ H - b.height) ∧
    (DetectronDiseaseService.getDiseaseColor "Karpa (Anthracnose)" = "#dc2626" ∧
      DetectronDiseaseService.getDiseaseColor "Bhuri (Powdery Mildew)" = "#f59e0b" ∧
      DetectronDiseaseService.getDiseaseColor "Davnya (Downy Mildew)" = "#8b5cf6" ∧
      DetectronDiseaseService.getDiseaseColor "Bokadlela (Borer Infestation)" = "#ef4444" ∧
      DetectronDiseaseService.getDiseaseColor "Healthy" = "#10b981") := by
  refine ⟨?_, ?_, ⟨rfl, rfl, rfl, rfl, rfl⟩⟩
  · intro hnone
    simp [DetectronDiseaseService.generateLocalBoundingBoxes, hnone]
  · intro hne
    have hfloor0 : (0 : ℤ) ≤ (rnd 0 * 3).floor := by
      have h0 : (0 : ℚ) ≤ rnd 0 * 3 := by nlinarith [(hrnd 0).1]
      exact_mod_cast Int.floor_nonneg.mpr h0
    refine ⟨?_, ?_, ?_⟩
    · simp only [DetectronDiseaseService.generateLocalBoundingBoxes, if_neg hne,
        List.length_map, List.length_range]
      omega
    · simp only [DetectronDiseaseService.generateLocalBoundingBoxes, if_neg hne,
        List.length_map, List.length_range]
      omega
    · intro b hb
      simp only [DetectronDiseaseService.generateLocalBoundingBoxes, if_neg hne,
        List.mem_map, List.mem_range] at hb
      obtain ⟨i, _, rfl⟩ := hb
      obtain ⟨h1a, h1b⟩ := hrnd (4 * i + 1)
      obtain ⟨h2a, h2b⟩ := hrnd (4 * i + 2)
      obtain ⟨h3a, h3b⟩ := hrnd (4 * i + 3)
      obtain ⟨h4a, h4b⟩ := hrnd (4 * i + 4)
      simp only
      have hw1 : (0 : ℚ) ≤ W - W * (2 / 10 + rnd (4 * i + 1) * (3 / 10)) := by
        nlinarith [mul_nonneg hW.le
          (by linarith : (0 : ℚ) ≤ 8 / 10 - rnd (4 * i + 1) * (3 / 10))]
      have hh1 : (0 : ℚ) ≤ H - H * (15 / 100 + rnd (4 * i + 2) * (25 / 100)) := by
        nlinarith [mul_nonneg hH.le
          (by linarith : (0 : ℚ) ≤ 85 / 100 - rnd (4 * i + 2) * (25 / 100))]
      refine ⟨by nlinarith, by nlinarith, by nlinarith, by nlinarith,
        mul_nonneg h3a hw1, ?_, mul_nonneg h4a hh1, ?_⟩
      · nlinarith [mul_nonneg
          (by linarith : (0 : ℚ) ≤ 1 - rnd (4 * i + 3)) hw1]
      · nlinarith [mul_nonneg
          (by linarith : (0 : ℚ) ≤ 1 - rnd (4 * i + 4)) hh1]

/-- Witness for C8 at a concrete random stream and frame. -/
theorem generateLocalBoundingBoxes_inside_frame_witness :
    ((∀ i : Nat, 0 ≤ ((fun _ => (1 : ℚ) / 2) i : ℚ) ∧
        ((fun _ => (1 : ℚ) / 2) i : ℚ) < 1) ∧
      (0 : ℚ) < 640 ∧ (0 : ℚ) < 480 ∧ "High" ≠ "None") ∧
    (DetectronDiseaseService.generateLocalBoundingBoxes (fun _ => 1 / 2) 640 480
        "None" = [] ∧
      1 ≤ (DetectronDiseaseService.generateLocalBoundingBoxes (fun _ => 1 / 2) 640 480
        "High").length) := by
  have hrnd : ∀ i : Nat, 0 ≤ ((fun _ => (1 : ℚ) / 2) i : ℚ) ∧
      ((fun _ => (1 : ℚ) / 2) i : ℚ) < 1 := fun _ => by norm_num
  refine ⟨⟨hrnd, by norm_num, by norm_num, by decide⟩, ?_, ?_⟩
  · exact (generateLocalBoundingBoxes_inside_frame (fun _ => 1 / 2) 640 480 "None"
      hrnd (by norm_num) (by norm_num)).1 rfl
  · exact ((generateLocalBoundingBoxes_inside_frame (fun _ => 1 / 2) 640 480 "High"
      hrnd (by norm_num) (by norm_num)).2.1 (by decide)).1

namespace DetectronDiseaseService

/-- ASCII digit test (`\d`). -/
def isDigitCh (c : Char) : Bool := '0' ≤ c && c ≤ '9'

/-- Whitespace test (`\s`, the forms that occur in labels). -/
def isWsCh (c : Char) : Bool :=
  c = ' ' || c = '\t' || c = '\n' || c = '\r' || c = '\x0b' || c = '\x0c'

/-- Numeric value of a digit string. -/
def digitsVal (l : List Char) : Nat :=
  l.foldl (fun a c => 10 * a + (c.toNat - '0'.toNat)) 0

/-- Match exactly `k` digits at the head, returning them and the remainder. -/
def matchKDigits : Nat → List Char → Option (List Char × List Char)
  | 0, s => some ([], s)
  | _ + 1, [] => none
  | k + 1, c :: rest =>
    if isDigitCh c then
      (matchKDigits k rest).map (fun p => (c :: p.1, p.2))
    else none

/-- `\s?%` at the head (the optional whitespace tried greedily first, as the
JS engine does). -/
def percentFollow : List Char → Bool
  | c :: d :: _ => (isWsCh c && d = '%') || c = '%'
  | [c] => c = '%'
  | [] => false

/-- Try `\d{k}\s?%` at the head, capturing the digit value. -/
def percentTryK (k : Nat) (s : List Char) : Option Nat :=
  match matchKDigits k s with
  | some (ds, rest) => if percentFollow rest then some (digitsVal ds) else none
  | none => none

/-- `\d{1,3}\s?%` anchored at the head: the greedy quantifier tries three
digits first, backtracking to two and then one. -/
def percentAt (s : List Char) : Option Nat :=
  (percentTryK 3 s).orElse fun _ =>
    (percentTryK 2 s).orElse fun _ => percentTryK 1 s

/-- `label.match(/(\d{1,3})\s?%/)`: leftmost match of the percent pattern,
returning the numeric value of the captured digits. -/
def matchPercent : List Char → Option Nat
  | [] => none
  | c :: rest =>
    match percentAt (c :: rest) with
    | some v => some v
    | none => matchPercent rest

/-- `\d{1,3}` after the decimal point, greedy: up to three leading digits,
at least one. -/
def fracDigits : List Char → Option (List Char)
  | c1 :: c2 :: c3 :: _ =>
    if isDigitCh c1 then
      some (if isDigitCh c2 then (if isDigitCh c3 then [c1, c2, c3] else [c1, c2])
        else [c1])
    else none
  | [c1, c2] =>
    if isDigitCh c1 then some (if isDigitCh c2 then [c1, c2] else [c1]) else none
  | [c1] => if isDigitCh c1 then some [c1] else none
  | [] => none

/-- `(0?\.\d{1,3}|1\.0)` anchored at the head, returning the matched value
in thousandths (so `"0.85" ↦ 850`, `".5" ↦ 500`, `"1.0" ↦ 1000`);
`Math.round(v * 1000)` is exact for these values. -/
def probAt : List Char → Option Nat
  | '0' :: '.' :: rest =>
    (fracDigits rest).map (fun ds => digitsVal ds * 10 ^ (3 - ds.length))
  | '.' :: rest =>
    (fracDigits rest).map (fun ds => digitsVal ds * 10 ^ (3 - ds.length))
  | '1' :: '.' :: '0' :: _ => some 1000
  | _ => none

/-- `label.match(/(0?\.\d{1,3}|1\.0)/)`: leftmost match, in thousandths. -/
def matchProb : List Char → Option Nat
  | [] => none
  | c :: rest =>
    match probAt (c :: rest) with
    | some v => some v
    | none => matchProb rest

/-- JS truthiness of the label (`null`/`undefined`/empty string are falsy). -/
def jsLabelTruthy (label : Option String) : Bool :=
  label.getD "" ≠ ""

/-- `percentMatch = label ? label.match(/(\d{1,3})\s?%/) : null`. -/
def percentMatchOf (label : Option String) : Option Nat :=
  if jsLabelTruthy label then matchPercent (label.getD "").toList else none

/-- `probMatch = label ? label.match(/(0?\.\d{1,3}|1\.0)/) : null`. -/
def probMatchOf (label : Option String) : Option Nat :=
  if jsLabelTruthy label then matchProb (label.getD "").toList else none

/-- The disease mapping entries `(name, severity)` in key order 1..5. -/
def diseaseMapping : List (String × String) :=
  [("Karpa (Anthracnose)", "High"),
    ("Bhuri (Powdery Mildew)", "Medium"),
    ("Bokadlela (Borer Infestation)", "High"),
    ("Davnya (Downy Mildew)", "High"),
    ("Healthy", "None")]

/-- `Object.values(this.diseaseMapping).find(d => label &&
label.toLowerCase().includes(d.name.toLowerCase()))`. -/
def lookupDisease (label : Option String) : Option (String × String) :=
  diseaseMapping.find? (fun d =>
    jsLabelTruthy label && strContains (jsToLower (label.getD "")) (jsToLower d.1))

/-- `diseaseInfo.name` (`mapped || { name: label || 'Unknown', … }`). -/
def diseaseNameOf (label : Option String) : String :=
  match lookupDisease label with
  | some d => d.1
  | none => if jsLabelTruthy label then label.getD "" else "Unknown"

/-- `/healthy/i.test(s)`. -/
def testHealthy (s : String) : Bool :=
  strContains (jsToLower s) "healthy"

/-- `isHealthy = /healthy/i.test(diseaseInfo.name) || /healthy/i.test(label || '')`. -/
def isHealthyOf (label : Option String) : Bool :=
  testHealthy (diseaseNameOf label) || testHealthy (label.getD "")

/-- `Math.max(lo, Math.min(hi, v))`. -/
def clampQ (lo hi v : ℚ) : ℚ := max lo (min hi v)

/-- The confidence-parsing block of `predictWithDetectron`: percent regex
first (clamped to `[0,100]`), else probability regex
(`Math.round(v*1000)/10`, clamped), else 0; a zero result is replaced by the
95/90 heuristic default. -/
def confidenceFromLabel (label : Option String) : ℚ :=
  let c1 : ℚ :=
    match percentMatchOf label with
    | some v => clampQ 0 100 (v : ℚ)
    | none =>
      match probMatchOf label with
      | some th => clampQ 0 100 ((th : ℚ) / 10)
      | none => 0
  if c1 = 0 then (if isHealthyOf label then 95 else 90) else c1

end DetectronDiseaseService

/-- C7: the parsed confidence is always a percentage in `[0,100]`, and when
neither the percent pattern nor the probability pattern matches the label it
is exactly 95 for the healthy/no-detection class and exactly 90 for every
other class. -/
theorem confidenceFromLabel_range_and_default :
    (∀ label : Option String,
      0 ≤ DetectronDiseaseService.confidenceFromLabel label ∧
        DetectronDiseaseService.confidenceFromLabel label ≤ 100) ∧
    (∀ label : Option String,
      DetectronDiseaseService.percentMatchOf label = none →
      DetectronDiseaseService.probMatchOf label = none →
        DetectronDiseaseService.confidenceFromLabel label =
          (if DetectronDiseaseService.isHealthyOf label then 95 else 90)) := by
  constructor
  · intro label
    unfold DetectronDiseaseService.confidenceFromLabel
    cases hp : DetectronDiseaseService.percentMatchOf label with
    | some v =>
      simp only
      by_cases hz : DetectronDiseaseService.clampQ 0 100 (v : ℚ) = 0
      · rw [if_pos hz]
        by_cases hh : DetectronDiseaseService.isHealthyOf label <;>
          simp [hh] <;> norm_num
      · rw [if_neg hz]
        unfold DetectronDiseaseService.clampQ
        constructor
        · exact le_max_left _ _
        · exact max_le (by norm_num) (min_le_left _ _)
    | none =>
      cases hq : DetectronDiseaseService.probMatchOf label with
      | some th =>
        simp only
        by_cases hz : DetectronDiseaseService.clampQ 0 100 ((th : ℚ) / 10) = 0
        · rw [if_pos hz]
          by_cases hh : DetectronDiseaseService.isHealthyOf label <;>
            simp [hh] <;> norm_num
        · rw [if_neg hz]
          unfold DetectronDiseaseService.clampQ
          constructor
          · exact le_max_left _ _
          · exact max_le (by norm_num) (min_le_left _ _)
      | none =>
        simp only [if_pos rfl]
        by_cases hh : DetectronDiseaseService.isHealthyOf label <;>
          simp [hh] <;> norm_num
  · intro label hp hq
    unfold DetectronDiseaseService.confidenceFromLabel
    rw [hp, hq]
    simp

/-- Witness for C7: the bare labels "Healthy" and "Karpa (Anthracnose)"
match neither pattern and default to 95 and 90 respectively. -/
theorem confidenceFromLabel_range_and_default_witness :
    (DetectronDiseaseService.percentMatchOf (some "Healthy") = none ∧
      DetectronDiseaseService.probMatchOf (some "Healthy") = none ∧
      DetectronDiseaseService.confidenceFromLabel (some "Healthy") = 95) ∧
    (DetectronDiseaseService.percentMatchOf (some "Karpa (Anthracnose)") = none ∧
      DetectronDiseaseService.probMatchOf (some "Karpa (Anthracnose)") = none ∧
      DetectronDiseaseService.confidenceFromLabel (some "Karpa (Anthracnose)") = 90) := by
  have h1 : DetectronDiseaseService.percentMatchOf (some "Healthy") = none := by decide
  have h2 : DetectronDiseaseService.probMatchOf (some "Healthy") = none := by decide
  have h3 : DetectronDiseaseService.percentMatchOf (some "Karpa (Anthracnose)") = none := by
    decide
  have h4 : DetectronDiseaseService.probMatchOf (some "Karpa (Anthracnose)") = none := by
    decide
  refine ⟨⟨h1, h2, ?_⟩, h3, h4, ?_⟩
  · rw [confidenceFromLabel_range_and_default.2 (some "Healthy") h1 h2]
    decide
  · rw [confidenceFromLabel_range_and_default.2 (some "Karpa (Anthracnose)") h3 h4]
    decide

namespace AnalysisSupabaseService

/-- `AnalysisSupabaseService.listProcessedDriveIds(uid, limit = 2000)`:
the distinct `analysis_result->originDriveId` values of the user's
`type = 'live'` rows whose origin id is non-null (row scan capped at the
default limit of 2000). -/
def listProcessedDriveIds (rows : List DetectionRow) : List String :=
  ((rows.filter (fun r => r.rowType = "live" && r.originDriveId.isSome)).take 2000).foldl
    (fun s r =>
      match r.originDriveId with
      | some i => addId s i
      | none => s) []

end AnalysisSupabaseService

namespace LiveCameraFeed

/-- `DRIVE_BATCH_SIZE = 5`. -/
def DRIVE_BATCH_SIZE : Nat := 5

/-- Fuel bound for the two (source-unbounded) page-accumulation `while`
loops of `loadDriveRecent`; each loop iteration consumes one unit. -/
def PAGE_FUEL : Nat := 100

/-- An entry of the component's `detectionHistory` list: either a mapped
persisted record (`driveId = none`) or a Drive-fallback placeholder
(`id = "drive_" ++ driveId`, `pendingDetection = true` while the
"Processing…" stub detection is shown). -/
structure FeedItem where
  id : String
  camera : Option Nat
  originalImage : Option String
  visualizationImage : Option String
  driveId : Option String
  pendingDetection : Bool
deriving DecidableEq, Repr

/-- The component state relevant to the feed, plus the persisted store
(`storeRows`, newest rows carrying larger `createdAt`; `clock` supplies
fresh `created_at` stamps for rows inserted by background persists). -/
structure FeedState where
  detectionHistory : List FeedItem
  page : Nat
  hasMore : Bool
  isDriveFallback : Bool
  driveCache : List DriveImage
  drivePage : Nat
  driveFolders : List DriveFolder
  driveFolderIndex : Nat
  drivePageToken : Option Nat
  processedDriveIds : List String
  storeRows : List DetectionRow
  clock : Nat
deriving DecidableEq, Repr

/-- A fresh feed session (the component's `useState` initial values); the
initial persisted store and clock are scenario inputs. -/
def initFeedState (rows : List DetectionRow) (clock : Nat) : FeedState :=
  { detectionHistory := []
    page := 0
    hasMore := false
    isDriveFallback := false
    driveCache := []
    drivePage := 0
    driveFolders := []
    driveFolderIndex := 0
    drivePageToken := none
    processedDriveIds := []
    storeRows := rows
    clock := clock }

/-- External collaborators of the feed: the signed-in user, the Drive
listing service, per-item fetch/detection/persist outcomes, and the
model-availability flags read by the background-detection guard. -/
structure FeedEnv where
  uid : Option String
  folders : List DriveFolder
  pageAt : String → Nat → DrivePage
  fetchOk : String → Bool
  dataUrlOf : String → String
  detectOk : String → Bool
  predictResultOf : String → DetectronDiseaseService.DetResult
  persistOk : String → Bool
  storedOriginalUrlOf : String → String
  storedVisUrlOf : String → String
  isModelLoaded : Bool
  modelError : Bool

/-- Mapping of a queried `AnalysisItem` into a feed row
(`loadCloudHistoryPage`'s `items.map(...)`; the mapped view carries no
origin-drive field). -/
def mapCloudItem (it : AnalysisItem) : FeedItem :=
  { id := it.id
    camera := it.camera
    originalImage := it.originalImage
    visualizationImage := it.visualizationImage
    driveId := none
    pendingDetection := false }

/-- `countUnseen(arr)` inside `loadDriveRecent`:
`arr.reduce((acc, f) => acc + (seen.has(f.id) ? 0 : 1), 0)`. -/
def countUnseen (seen : List String) (arr : List DriveImage) : Nat :=
  arr.foldl (fun acc f => acc + (if seen.contains f.id then 0 else 1)) 0

/-- First `while` loop of `loadDriveRecent`: keep fetching pages of the
current folder while a next-page token exists and fewer than
`DRIVE_BATCH_SIZE` unseen images have been accumulated. -/
def exhaustFolderPages (env : FeedEnv) (seen : List String) (folderId : String) :
    Nat → List DriveImage → Option Nat → List DriveImage × Option Nat
  | 0, working, tok => (working, tok)
  | fuel + 1, working, tok =>
    match tok with
    | none => (working, none)
    | some t =>
      if countUnseen seen working < DRIVE_BATCH_SIZE then
        let page := env.pageAt folderId t
        exhaustFolderPages env seen folderId fuel (working ++ page.files)
          page.nextPageToken
      else (working, some t)

/-- Second `while` loop of `loadDriveRecent`: move to older folders while
still short of `DRIVE_BATCH_SIZE` unseen images. -/
def advanceFolders (env : FeedEnv) (seen : List String) :
    Nat → List DriveImage → List DriveFolder → Nat → Option Nat →
      List DriveImage × Nat × Option Nat
  | 0, working, _, idx, tok => (working, idx, tok)
  | fuel + 1, working, folders, idx, tok =>
    if countUnseen seen working < DRIVE_BATCH_SIZE ∧ 0 < folders.length ∧
        idx + 1 < folders.length then
      let nextFolder := folders.getD (idx + 1) ⟨"", ""⟩
      let page := env.pageAt nextFolder.id 0
      advanceFolders env seen fuel (working ++ page.files) folders (idx + 1)
        page.nextPageToken
    else (working, idx, tok)

/-- The batch-selection `for` loop of `loadDriveRecent`: push unseen images
in listing order, breaking once `DRIVE_BATCH_SIZE` are collected. -/
def selectBatchAux (seen : List String) :
    List DriveImage → List DriveImage → List DriveImage
  | [], batch => batch
  | img :: rest, batch =>
    let batch2 := if seen.contains img.id then batch else batch ++ [img]
    if DRIVE_BATCH_SIZE ≤ batch2.length then batch2
    else selectBatchAux seen rest batch2

/-- `const batch = …` of `loadDriveRecent`. -/
def selectBatch (seen : List String) (working : List DriveImage) :
    List DriveImage :=
  selectBatchAux seen working []

/-- Materialize one batch image as a placeholder feed row
(`batch.map(async img => …)`); a failed data-URL fetch drops the item
(`return null`, later `.filter(Boolean)`). -/
def buildPlaceholder (env : FeedEnv) (img : DriveImage) : Option FeedItem :=
  if env.fetchOk img.id then
    some { id := "drive_" ++ img.id
           camera := some (LiveMonitoringService.cameraNumber img.name)
           originalImage := some (env.dataUrlOf img.id)
           visualizationImage := none
           driveId := some img.id
           pendingDetection := true }
  else none

/-- `batchPrepared` of `loadDriveRecent`. -/
def batchPrepared (env : FeedEnv) (batch : List DriveImage) : List FeedItem :=
  batch.filterMap (buildPlaceholder env)

/-- The post-run marking step of `loadDriveRecent`
(`const newSet = new Set(seen); batch.forEach(img => newSet.add(img.id));
setProcessedDriveIds(newSet)`) — it adds **every** batch id, whatever the
per-item outcomes were. -/
def markBatchProcessed (seen : List String) (batch : List DriveImage) :
    List String :=
  batch.foldl (fun acc img => addId acc img.id) seen

/-- The Supabase row actually inserted for a fallback item:
`uploadImagesAndSave` builds `detectionData` with snake_case keys
(`disease_detected`, `confidence_score`, `detected_regions`, `model_type`,
`visualization_image`) and provenance under `detectionData.analysis_result`,
but `supabaseData.createDetection` rebuilds the insert from **camelCase**
keys (`detectionData.disease`, `.confidence`, `.detectedRegions`,
`.modelType`, `.visualizationImage`) and stores
`analysis_result := detectionData` wholesale.  Consequently the columns fed
from the missing camelCase keys are NULL, only `type`, `image_url`
(the uploaded original's URL), `severity`, and `camera` survive, and the
queryable `analysis_result->originDriveId` is NULL — the Drive id sits one
level deeper, at `analysis_result->analysis_result->originDriveId`, where
`listProcessedDriveIds` never looks. -/
def mkStoredRow (env : FeedEnv) (item : FeedItem) (clock : Nat) : DetectionRow :=
  { id := "rec_" ++ item.id
    diseaseDetected := none
    confidenceScore := none
    severity :=
      if (env.predictResultOf item.id).severity = "" then none
      else some (env.predictResultOf item.id).severity
    detectedRegions := none
    createdAt := clock
    visualizationImage := none
    imageUrl := some (env.storedOriginalUrlOf item.id)
    modelType := none
    rowType := "live"
    camera := item.camera
    originDriveId := none }

/-- Did one task of `detectAndPersistForDriveItems` settle with a non-null
value?  True iff the item still lacked a visualization and its
image-element load (the only rejecting step — `predict` itself is total)
succeeded; a failed persist is caught inside the task and does **not** fail
it. -/
def taskSaved (env : FeedEnv) (item : FeedItem) : Bool :=
  !item.visualizationImage.isSome && env.detectOk item.id

/-- One task of `detectAndPersistForDriveItems`: skip items that already
have a visualization; run detection; attempt the persist (appending a store
row on success, swallowing failures); return the updated row for the
in-place UI swap. -/
def processDriveItem (env : FeedEnv) (item : FeedItem) (st : FeedState) :
    FeedState × Option FeedItem :=
  if item.visualizationImage.isSome then (st, none)
  else if env.detectOk item.id then
    let persisted := env.uid.isSome && env.persistOk item.id
    let st2 :=
      if persisted then
        { st with storeRows := mkStoredRow env item st.clock :: st.storeRows
                  clock := st.clock + 1 }
      else st
    let storedOriginal : Option String :=
      if persisted then some (env.storedOriginalUrlOf item.id) else none
    let storedVis : Option String :=
      if persisted then some (env.storedVisUrlOf item.id) else none
    (st2,
      some { item with
        originalImage := (storedOriginal.orElse fun _ => item.originalImage)
        visualizationImage :=
          ((storedVis.orElse fun _ =>
            (env.predictResultOf item.id).visualizationImage).orElse fun _ =>
              item.originalImage)
        pendingDetection := false })
  else (st, none)

/-- `detectAndPersistForDriveItems(items)`: run every task (updating the
rendered list in place per item), then, if any task settled non-null and a
user is signed in, clear the fallback flag and reload the first persisted
page (`reload`). -/
def detectAndPersistForDriveItems (reload : FeedState → FeedState)
    (env : FeedEnv) (items : List FeedItem) (s : FeedState) : FeedState :=
  let s1 := items.foldl
    (fun st item =>
      let pr := processDriveItem env item st
      match pr.2 with
      | some updated =>
        { pr.1 with detectionHistory :=
            pr.1.detectionHistory.map (fun it => if it.id = item.id then updated else it) }
      | none => pr.1)
    s
  if items.any (taskSaved env) && env.uid.isSome then
    reload { s1 with isDriveFallback := false }
  else s1

end LiveCameraFeed

namespace LiveCameraFeed

/-- Body of `loadDriveRecent` after the cache/folder bootstrap: page
accumulation, batch selection, `hasMore`, placeholder surfacing, background
detection/persist, and the final marking of the whole batch as processed.
`seen` is the `processedDriveIds` value captured at call entry (the closure
value — the seeding `setProcessedDriveIds` of this very call is not yet
visible, React state updates being asynchronous); `midProcessed` is the
React-state value after the potential seed write. -/
def loadDriveRecentCore (env : FeedEnv) (reload : FeedState → FeedState)
    (nextDrivePage : Nat) (append : Bool) (s : FeedState)
    (images : List DriveImage) (localFolders : List DriveFolder)
    (localFolderIndex : Nat) (localPageToken : Option Nat)
    (midProcessed : List String) : FeedState :=
  let seen := s.processedDriveIds
  let afterPages :=
    if 0 < localFolders.length then
      let currentFolder :=
        match localFolders.get? localFolderIndex with
        | some f => f
        | none => localFolders.getD 0 ⟨"", ""⟩
      exhaustFolderPages env seen currentFolder.id PAGE_FUEL images localPageToken
    else (images, localPageToken)
  let afterFolders := advanceFolders env seen PAGE_FUEL afterPages.1 localFolders
    localFolderIndex afterPages.2
  let working := afterFolders.1
  let lfi := afterFolders.2.1
  let tok := afterFolders.2.2
  let batch := selectBatch seen working
  let remainingAfterBatch :=
    (working.filter (fun img => !(seen.contains img.id))).length - batch.length
  let hasMoreNow := decide (0 < remainingAfterBatch) || tok.isSome ||
    (decide (0 < localFolders.length) && decide (lfi + 1 < localFolders.length))
  let s1 := { s with
    isDriveFallback := true
    driveCache := working
    driveFolders := localFolders
    driveFolderIndex := lfi
    drivePageToken := tok
    processedDriveIds := midProcessed
    hasMore := hasMoreNow }
  if batch.length = 0 then
    let sEmpty := { s1 with isDriveFallback := false }
    if env.uid.isSome then reload sEmpty else sEmpty
  else
    let prepared := batchPrepared env batch
    let s2 :=
      if prepared.length ≠ 0 then
        { s1 with detectionHistory :=
            if append then s1.detectionHistory ++ prepared else prepared }
      else s1
    let s3 := { s2 with drivePage := nextDrivePage }
    if prepared.length ≠ 0 ∧ env.isModelLoaded = true ∧ env.modelError = false then
      let s4 := detectAndPersistForDriveItems reload env prepared s3
      { s4 with processedDriveIds := markBatchProcessed seen batch }
    else s3

mutual

/-- `loadCloudHistoryPage(uid, nextPage)`: query a 10-row `type='live'`
page of the persisted store, map and render it (replace on page 0, append
otherwise), record `hasMore`; an empty first page falls through to
`loadDriveRecent(0)`, any other outcome clears the fallback flag.  The
`fuel` argument bounds the mutual recursion with `loadDriveRecent` (the
source has no such bound and can ping-pong between the two). -/
def loadCloudHistoryPage (env : FeedEnv) : Nat → Nat → FeedState → FeedState
  | 0, _, s => s
  | fuel + 1, nextPage, s =>
    match env.uid with
    | none => { s with detectionHistory := [], hasMore := false }
    | some _ =>
      let q := AnalysisSupabaseService.listUserAnalysesPaged s.storeRows 10
        nextPage (some "live")
      let mapped := q.1.map mapCloudItem
      let s1 := { s with
        detectionHistory :=
          if nextPage = 0 then mapped else s.detectionHistory ++ mapped
        hasMore := q.2.1
        page := nextPage }
      if nextPage = 0 ∧ mapped = [] then loadDriveRecent env fuel 0 false s1
      else { s1 with isDriveFallback := false }

/-- `loadDriveRecent(nextDrivePage, { append })`: set the fallback flag, on
first entry fetch the folder list and the newest folder's first page and
seed `processedDriveIds` from the store, then run the core
(accumulate/select/surface/detect/mark). -/
def loadDriveRecent (env : FeedEnv) : Nat → Nat → Bool → FeedState → FeedState
  | 0, _, _, s => s
  | fuel + 1, nextDrivePage, append, s =>
    let s0 := { s with isDriveFallback := true }
    if s0.driveCache.length = 0 then
      if env.folders.length = 0 then
        { s0 with detectionHistory := [], hasMore := false }
      else
        let firstPage := env.pageAt (env.folders.getD 0 ⟨"", ""⟩).id 0
        let seeded :=
          if env.uid.isSome && s0.processedDriveIds.length = 0 then
            AnalysisSupabaseService.listProcessedDriveIds s0.storeRows
          else s0.processedDriveIds
        loadDriveRecentCore env (loadCloudHistoryPage env fuel 0) nextDrivePage
          append s0 firstPage.files env.folders 0 firstPage.nextPageToken seeded
    else
      loadDriveRecentCore env (loadCloudHistoryPage env fuel 0) nextDrivePage
        append s0 s0.driveCache s0.driveFolders s0.driveFolderIndex
        s0.drivePageToken s0.processedDriveIds

end

end LiveCameraFeed

theorem contains_false_iff_not_mem (l : List String) (x : String) :
    l.contains x = false ↔ x ∉ l := by simp

theorem mem_markFold (batch : List DriveImage) :
    ∀ (seen : List String) (y : String),
      (y ∈ seen ∨ ∃ img ∈ batch, img.id = y) →
      y ∈ batch.foldl (fun acc img => addId acc img.id) seen := by
  induction batch with
  | nil =>
    intro seen y h
    rcases h with h | ⟨i, hmem, _⟩
    · exact h
    · exact absurd hmem (List.not_mem_nil i)
  | cons b rest ih =>
    intro seen y h
    simp only [List.foldl_cons]
    apply ih
    rcases h with hseen | ⟨i, hmem, heq⟩
    · exact Or.inl (mem_addId.mpr (Or.inl hseen))
    · rcases List.mem_cons.mp hmem with rfl | hrest
      · exact Or.inl (mem_addId.mpr (Or.inr heq.symm))
      · exact Or.inr ⟨i, hrest, heq⟩

/-- C1 amended: on the monitor batch path, after the batch settles every
successfully processed item's Drive id is in the ledger and every failed
item's id is absent; on the fallback feed path, the post-run marking step
instead adds **every** batch id to `processedDriveIds`, failed items
included. -/
theorem ledger_written_only_after_persist_on_monitor_path :
    (∀ (env : LiveMonitoringService.MonEnv) (outcome : String → Bool)
        (s : LiveMonitoringService.MonState) (n : Nat),
      s.isProcessing = false →
      (∀ folders, env.dateFolders = .ok folders →
        (LiveMonitoringService.folderIdsOf env folders).Nodup) →
      ∀ img ∈ (LiveMonitoringService.getUnprocessedImages env s.processed n).2,
        (outcome img.id = true →
          img.id ∈ (LiveMonitoringService.processLatestImages env outcome s n).1.processed) ∧
        (outcome img.id = false →
          img.id ∉ (LiveMonitoringService.processLatestImages env outcome s n).1.processed)) ∧
    (∀ (seen : List String) (batch : List DriveImage),
      ∀ img ∈ batch, img.id ∈ LiveCameraFeed.markBatchProcessed seen batch) := by
  constructor
  · intro env outcome s n hbusy hnd img hmem
    rw [LiveMonitoringService.processLatestImages_processed_eq env outcome s n hbusy]
    constructor
    · intro hok
      rw [LiveMonitoringService.mem_ledgerAfter]
      exact Or.inr ⟨img, hmem, hok, rfl⟩
    · intro hfail
      rw [LiveMonitoringService.mem_ledgerAfter]
      rintro (hseed | ⟨img2, hmem2, hok2, heq⟩)
      · exact (contains_false_iff_not_mem _ _).mp
          (LiveMonitoringService.getUnprocessedImages_fresh env s.processed n img hmem)
          hseed
      · have hnodup := LiveMonitoringService.getUnprocessedImages_nodup env
          s.processed n hnd
        have : img2 = img := List.inj_on_of_nodup_map hnodup hmem2 hmem heq
        rw [this, hfail] at hok2
        exact Bool.false_ne_true hok2
  · intro seen batch img hmem
    exact mem_markFold batch seen img.id (Or.inr ⟨img, hmem, rfl⟩)

/-- A convention-matching Drive image in the newest folder. -/
def imgD1 : DriveImage := ⟨"d1", "20250102-090000_1.jpg", 9⟩

/-- A Drive image whose filename matches neither camera marker. -/
def imgP1 : DriveImage := ⟨"p1", "photo.png", 5⟩

/-- A persisted `type='live'` record whose provenance points at `imgD1`. -/
def rowR1 : DetectionRow :=
  { id := "r1"
    diseaseDetected := some "Healthy"
    confidenceScore := some 95
    severity := some "None"
    detectedRegions := some 0
    createdAt := 10
    visualizationImage := some "https://v/r1"
    imageUrl := some "https://o/r1"
    modelType := some "AI (HF Space)"
    rowType := "live"
    camera := some 1
    originDriveId := some "d1" }

/-- A fixed settled prediction used in concrete scenarios. -/
def demoDet : DetectronDiseaseService.DetResult :=
  { disease := "Karpa (Anthracnose)"
    confidence := 90
    severity := "High"
    detectedRegions := 1
    healthyArea := 10
    visualizationImage := some "data:vis" }

/-- Feed environment with one date folder holding one listing page. -/
def mkFeedEnv (pageFiles : List DriveImage) (detOk modelLoaded : Bool) :
    LiveCameraFeed.FeedEnv :=
  { uid := some "u1"
    folders := [⟨"f1", "20250102"⟩]
    pageAt := fun fid t => if fid = "f1" ∧ t = 0 then ⟨pageFiles, none⟩ else ⟨[], none⟩
    fetchOk := fun _ => true
    dataUrlOf := fun i => "data:" ++ i
    detectOk := fun _ => detOk
    predictResultOf := fun _ => demoDet
    persistOk := fun _ => true
    storedOriginalUrlOf := fun i => "https://store/o/" ++ i
    storedVisUrlOf := fun i => "https://store/v/" ++ i
    isModelLoaded := modelLoaded
    modelError := false }

/-- Monitor environment with one folder holding one fresh matching image. -/
def envC1w : LiveMonitoringService.MonEnv :=
  { dateFolders := .ok [⟨"f1", "20250102"⟩]
    folderImages := fun _ => .ok [imgA]
    persistedIds := [] }

/-- Witness for the amended C1 statement: an idle run over one fresh image
whose pipeline succeeds puts its id in the ledger. -/
theorem ledger_written_only_after_persist_on_monitor_path_witness :
    ((⟨[], false⟩ : LiveMonitoringService.MonState).isProcessing = false ∧
      imgA ∈ (LiveMonitoringService.getUnprocessedImages envC1w [] 5).2 ∧
      (fun _ : String => true) imgA.id = true) ∧
    imgA.id ∈ (LiveMonitoringService.processLatestImages envC1w (fun _ => true)
      ⟨[], false⟩ 5).1.processed := by
  have hnd : ∀ folders, envC1w.dateFolders = .ok folders →
      (LiveMonitoringService.folderIdsOf envC1w folders).Nodup := by
    intro folders h
    cases h
    decide
  have hmem : imgA ∈ (LiveMonitoringService.getUnprocessedImages envC1w
      (([] : List String)) 5).2 := by decide
  exact ⟨⟨rfl, hmem, rfl⟩,
    (ledger_written_only_after_persist_on_monitor_path.1 envC1w (fun _ => true)
      ⟨[], false⟩ 5 rfl hnd imgA hmem).1 rfl⟩

/-- C1 counterexample: in a fallback feed run whose single item fails
classification (`detectOk = false`), nothing is persisted, yet the item's
Drive id ends up in the processed-IDs ledger — a failed item is **not**
absent from the ledger after the batch settles. -/
theorem fallback_marks_failed_item_processed :
    (mkFeedEnv [imgD1] false true).detectOk "drive_d1" = false ∧
    (LiveCameraFeed.loadCloudHistoryPage (mkFeedEnv [imgD1] false true) 5 0
      (LiveCameraFeed.initFeedState [] 100)).storeRows = [] ∧
    "d1" ∈ (LiveCameraFeed.loadCloudHistoryPage (mkFeedEnv [imgD1] false true) 5 0
      (LiveCameraFeed.initFeedState [] 100)).processedDriveIds := by
  refine ⟨rfl, ?_, ?_⟩ <;> decide

namespace LiveMonitoringService

/-- `LiveMonitoringService.processNextBatch(userId, page)`: probe for the
next unprocessed images (the page offset is computed but unused in the
source) and, when any exist, run `processLatestImages` over that count
(which re-fetches internally); otherwise return an empty batch. -/
def processNextBatch (env : MonEnv) (outcome : String → Bool) (s : MonState) :
    MonState × List String :=
  let fetched := getUnprocessedImages env s.processed BATCH_SIZE
  let s1 : MonState := { s with processed := fetched.1 }
  if fetched.2.length = 0 then (s1, [])
  else processLatestImages env outcome s1 fetched.2.length

end LiveMonitoringService

namespace LiveCameraFeed

/-- The monitoring-service environment induced by the feed's collaborators
(the monitor lists the same folders and first pages, and seeds from the
same persisted projection). -/
def monEnvOf (env : FeedEnv) (s : FeedState) : LiveMonitoringService.MonEnv :=
  { dateFolders := .ok env.folders
    folderImages := fun fid => .ok (env.pageAt fid 0).files
    persistedIds := AnalysisSupabaseService.listProcessedDriveIds s.storeRows }

/-- The fallback branch of the "Show More" click handler, taken when
`processNextBatch` yields nothing and the feed is not yet in Drive mode:
`setIsDriveFallback(true); loadDriveRecent(0, { append: true })`. -/
def showMoreFallbackEntry (env : FeedEnv) (fuel : Nat) (s : FeedState) :
    FeedState :=
  loadDriveRecent env fuel 0 true { s with isDriveFallback := true }

/-- The source remote ID of a surfaced feed entry: a placeholder carries it
directly (`_driveId`); a persisted-record entry resolves it through the
record's stored provenance (`analysis_result.originDriveId`). -/
def sourceRemoteOf (st : FeedState) (it : FeedItem) : Option String :=
  match it.driveId with
  | some d => some d
  | none =>
    match st.storeRows.find? (fun r => r.id = it.id) with
    | some r => r.originDriveId
    | none => none

theorem selectBatchAux_mem (seen : List String) :
    ∀ (working acc : List DriveImage) (x : DriveImage),
      x ∈ selectBatchAux seen working acc →
      x ∈ acc ∨ (x ∈ working ∧ seen.contains x.id = false) := by
  intro working
  induction working with
  | nil =>
    intro acc x hx
    exact Or.inl hx
  | cons img rest ih =>
    intro acc x hx
    simp only [selectBatchAux] at hx
    by_cases hc : seen.contains img.id
    · rw [if_pos hc] at hx
      by_cases hlen : DRIVE_BATCH_SIZE ≤ acc.length
      · rw [if_pos hlen] at hx
        exact Or.inl hx
      · rw [if_neg hlen] at hx
        rcases ih acc x hx with h | ⟨hw, hs⟩
        · exact Or.inl h
        · exact Or.inr ⟨List.mem_cons_of_mem img hw, hs⟩
    · rw [if_neg hc] at hx
      by_cases hlen : DRIVE_BATCH_SIZE ≤ (acc ++ [img]).length
      · rw [if_pos hlen] at hx
        rcases List.mem_append.mp hx with h | h
        · exact Or.inl h
        · rcases List.mem_singleton.mp h with rfl
          exact Or.inr ⟨List.mem_cons_self x rest, Bool.not_eq_true _ ▸ by
            simpa using hc⟩
      · rw [if_neg hlen] at hx
        rcases ih (acc ++ [img]) x hx with h | ⟨hw, hs⟩
        · rcases List.mem_append.mp h with h2 | h2
          · exact Or.inl h2
          · rcases List.mem_singleton.mp h2 with rfl
            exact Or.inr ⟨List.mem_cons_self x rest, by simpa using hc⟩
        · exact Or.inr ⟨List.mem_cons_of_mem img hw, hs⟩

theorem selectBatchAux_length (seen : List String) :
    ∀ (working acc : List DriveImage), acc.length < DRIVE_BATCH_SIZE →
      (selectBatchAux seen working acc).length ≤ DRIVE_BATCH_SIZE := by
  intro working
  induction working with
  | nil =>
    intro acc hacc
    exact le_of_lt hacc
  | cons img rest ih =>
    intro acc hacc
    simp only [selectBatchAux]
    by_cases hc : seen.contains img.id
    · rw [if_pos hc]
      by_cases hlen : DRIVE_BATCH_SIZE ≤ acc.length
      · rw [if_pos hlen]
        exact le_of_lt hacc
      · rw [if_neg hlen]
        exact ih acc hacc
    · rw [if_neg hc]
      by_cases hlen : DRIVE_BATCH_SIZE ≤ (acc ++ [img]).length
      · rw [if_pos hlen]
        simp only [List.length_append, List.length_singleton]
        omega
      · rw [if_neg hlen]
        refine ih (acc ++ [img]) ?_
        simp only [List.length_append, List.length_singleton] at hlen ⊢
        omega

end LiveCameraFeed

/-- C2 amended: within one fallback scan, every surfaced item comes from
the accumulated Drive listing and is absent from the `processedDriveIds`
value captured at the **start of the call** (not from the set of items
already rendered this session), and at most `DRIVE_BATCH_SIZE` items are
selected. -/
theorem fallback_batch_disjoint_from_entry_ledger (seen : List String)
    (working : List DriveImage) :
    (∀ img ∈ LiveCameraFeed.selectBatch seen working,
      img ∈ working ∧ img.id ∉ seen) ∧
    (LiveCameraFeed.selectBatch seen working).length ≤
      LiveCameraFeed.DRIVE_BATCH_SIZE := by
  constructor
  · intro img hmem
    rcases LiveCameraFeed.selectBatchAux_mem seen working [] img hmem with h | ⟨hw, hs⟩
    · exact absurd h (List.not_mem_nil img)
    · exact ⟨hw, (contains_false_iff_not_mem _ _).mp hs⟩
  · exact LiveCameraFeed.selectBatchAux_length seen working [] (by decide)

/-- Witness for the amended C2 statement at a concrete seen-set and
listing: the already-processed image is filtered out, the fresh one kept. -/
theorem fallback_batch_disjoint_from_entry_ledger_witness :
    imgD1 ∈ LiveCameraFeed.selectBatch ["p1"] [imgP1, imgD1] ∧
    imgD1 ∈ [imgP1, imgD1] ∧ imgD1.id ∉ ["p1"] ∧
    (LiveCameraFeed.selectBatch ["p1"] [imgP1, imgD1]).length ≤
      LiveCameraFeed.DRIVE_BATCH_SIZE := by
  have hmem : imgD1 ∈ LiveCameraFeed.selectBatch ["p1"] [imgP1, imgD1] := by decide
  obtain ⟨h1, h2⟩ := (fallback_batch_disjoint_from_entry_ledger ["p1"]
    [imgP1, imgD1]).1 imgD1 hmem
  exact ⟨hmem, h1, h2, (fallback_batch_disjoint_from_entry_ledger ["p1"]
    [imgP1, imgD1]).2⟩

/-- C2 scenario: a persisted, rendered record for `imgD1` exists; the model
is not loaded. -/
def envC2x : LiveCameraFeed.FeedEnv := mkFeedEnv [imgD1] true false

/-- First page of the session: the persisted record is rendered (PRIMARY). -/
def sC2a : LiveCameraFeed.FeedState :=
  LiveCameraFeed.loadCloudHistoryPage envC2x 5 0
    (LiveCameraFeed.initFeedState [rowR1] 100)

/-- "Show More" after the store is exhausted: the fallback branch fires. -/
def sC2b : LiveCameraFeed.FeedState :=
  LiveCameraFeed.showMoreFallbackEntry envC2x 5 sC2a

/-- C2 counterexample: across the PRIMARY→FALLBACK transition of one
session, the fallback scan re-surfaces the very remote item already
rendered from the persisted store — the "Show More" guard
(`processNextBatch`) yields nothing, the fallback branch fires, and the
rendered list ends up with two entries whose source remote ID is `"d1"`
(the scan filtered against the stale entry-time `processedDriveIds`, which
was still empty). -/
theorem fallback_resurfaces_rendered_item :
    (LiveMonitoringService.processNextBatch (LiveCameraFeed.monEnvOf envC2x sC2a)
      (fun _ => true) ⟨[], false⟩).2 = [] ∧
    sC2a.isDriveFallback = false ∧
    sC2a.detectionHistory.map (fun it => LiveCameraFeed.sourceRemoteOf sC2a it) =
      [some "d1"] ∧
    sC2b.detectionHistory.map (fun it => LiveCameraFeed.sourceRemoteOf sC2b it) =
      [some "d1", some "d1"] ∧
    sC2b.detectionHistory.map (fun it => it.id) = ["r1", "drive_d1"] := by
  refine ⟨?_, ?_, ?_, ?_, ?_⟩ <;> decide

/-- C3 amended: a fresh feed session starts in PRIMARY, but the transition
is **not** one-directional — whenever at least one fallback item's
background task settles non-null and a user is signed in,
`detectAndPersistForDriveItems` clears the fallback flag and reloads the
first persisted page, returning the session to PRIMARY. -/
theorem fallback_transition_reverts_on_successful_persist :
    (∀ (rows : List DetectionRow) (clock : Nat),
      (LiveCameraFeed.initFeedState rows clock).isDriveFallback = false) ∧
    (∀ (env : LiveCameraFeed.FeedEnv) (reload : LiveCameraFeed.FeedState →
        LiveCameraFeed.FeedState) (items : List LiveCameraFeed.FeedItem)
        (s : LiveCameraFeed.FeedState),
      env.uid.isSome = true → items.any (LiveCameraFeed.taskSaved env) = true →
      ∃ s', LiveCameraFeed.detectAndPersistForDriveItems reload env items s =
          reload s' ∧ s'.isDriveFallback = false) := by
  constructor
  · intro rows clock
    rfl
  · intro env reload items s huid hsaved
    unfold LiveCameraFeed.detectAndPersistForDriveItems
    rw [hsaved, huid]
    exact ⟨_, rfl, rfl⟩

/-- The placeholder `loadDriveRecent` builds for `imgD1`. -/
def phD1 : LiveCameraFeed.FeedItem :=
  { id := "drive_d1"
    camera := some 1
    originalImage := some "data:d1"
    visualizationImage := none
    driveId := some "d1"
    pendingDetection := true }

/-- Witness for the amended C3 statement at one concrete pending item. -/
theorem fallback_transition_reverts_on_successful_persist_witness :
    ((mkFeedEnv [imgD1] true true).uid.isSome = true ∧
      [phD1].any (LiveCameraFeed.taskSaved (mkFeedEnv [imgD1] true true)) = true) ∧
    ((LiveCameraFeed.initFeedState [] 0).isDriveFallback = false ∧
      ∃ s', LiveCameraFeed.detectAndPersistForDriveItems id
          (mkFeedEnv [imgD1] true true) [phD1]
          (LiveCameraFeed.initFeedState [] 0) = id s' ∧
        s'.isDriveFallback = false) :=
  ⟨⟨rfl, rfl⟩,
    fallback_transition_reverts_on_successful_persist.1 [] 0,
    fallback_transition_reverts_on_successful_persist.2 (mkFeedEnv [imgD1] true true)
      id [phD1] (LiveCameraFeed.initFeedState [] 0) rfl rfl⟩

/-- Same scenario with the model initially unavailable: the session parks in
FALLBACK with a rendered placeholder page. -/
def sC3fb : LiveCameraFeed.FeedState :=
  LiveCameraFeed.loadCloudHistoryPage (mkFeedEnv [imgD1] true false) 5 0
    (LiveCameraFeed.initFeedState [] 100)

/-- The pending-detection pass (`runPendingDetections`) once the model
becomes ready, over the placeholders rendered in FALLBACK mode. -/
def sC3back : LiveCameraFeed.FeedState :=
  LiveCameraFeed.detectAndPersistForDriveItems
    (LiveCameraFeed.loadCloudHistoryPage (mkFeedEnv [imgD1] true true) 5 0)
    (mkFeedEnv [imgD1] true true) sC3fb.detectionHistory sC3fb

/-- C3 counterexample: a session that started in PRIMARY, switched to
FALLBACK and rendered a fallback page returns to PRIMARY within the same
session as soon as the background pass persists the placeholder — the
PRIMARY→FALLBACK transition is not one-directional. -/
theorem fallback_session_returns_to_primary :
    (LiveCameraFeed.initFeedState [] 100).isDriveFallback = false ∧
    sC3fb.isDriveFallback = true ∧
    sC3fb.detectionHistory.map (fun it => it.id) = ["drive_d1"] ∧
    sC3back.isDriveFallback = false ∧
    sC3back.detectionHistory.map (fun it => it.id) = ["rec_drive_d1"] := by
  refine ⟨?_, ?_, ?_, ?_, ?_⟩ <;> decide

/-- C9 amended: the camera tag is a deterministic function of the filename
(`"_2.jpg"` substring ⇒ camera 2, anything else ⇒ camera 1), and items
matching neither marker are excluded on the **monitor scan** path
(`getUnprocessedImages`); the fallback archive scan does not apply this
filter. -/
theorem camera_tag_convention_and_monitor_exclusion :
    (∀ (env : LiveMonitoringService.MonEnv) (processed : List String) (limit : Nat),
      ∀ x ∈ (LiveMonitoringService.getUnprocessedImages env processed limit).2,
        LiveMonitoringService.hasCameraMarker x.name = true) ∧
    (∀ name : String,
      (strContains (jsToLower name) "_2.jpg" = true →
        LiveMonitoringService.cameraNumber name = 2) ∧
      (strContains (jsToLower name) "_2.jpg" = false →
        LiveMonitoringService.cameraNumber name = 1)) := by
  constructor
  · intro env processed limit x hx
    exact LiveMonitoringService.getUnprocessedImages_marker env processed limit x hx
  · intro name
    constructor
    · intro h
      unfold LiveMonitoringService.cameraNumber
      rw [if_pos h]
    · intro h
      unfold LiveMonitoringService.cameraNumber
      rw [if_neg (by simp [h])]

/-- Witness for the amended C9 statement: the monitor scan surfaces only
marker-matching files, and both marker cases of the camera derivation. -/
theorem camera_tag_convention_and_monitor_exclusion_witness :
    (imgA ∈ (LiveMonitoringService.getUnprocessedImages envC1w [] 5).2 ∧
      LiveMonitoringService.hasCameraMarker imgA.name = true) ∧
    (strContains (jsToLower "20250102-090000_2.jpg") "_2.jpg" = true ∧
      LiveMonitoringService.cameraNumber "20250102-090000_2.jpg" = 2 ∧
      strContains (jsToLower "photo.png") "_2.jpg" = false ∧
      LiveMonitoringService.cameraNumber "photo.png" = 1) := by
  have hmem : imgA ∈ (LiveMonitoringService.getUnprocessedImages envC1w
      ([] : List String) 5).2 := by decide
  refine ⟨⟨hmem, camera_tag_convention_and_monitor_exclusion.1 envC1w [] 5 imgA hmem⟩,
    by decide,
    (camera_tag_convention_and_monitor_exclusion.2 "20250102-090000_2.jpg").1
      (by decide),
    by decide,
    (camera_tag_convention_and_monitor_exclusion.2 "photo.png").2 (by decide)⟩

/-- C9 scenario: the newest folder holds only a file matching neither
camera marker; model loaded, everything succeeds. -/
def sC9 : LiveCameraFeed.FeedState :=
  LiveCameraFeed.loadCloudHistoryPage (mkFeedEnv [imgP1] true true) 5 0
    (LiveCameraFeed.initFeedState [] 100)

set_option maxHeartbeats 2000000 in
/-- C9 counterexample: the fallback ingestion path processes a remote item
(`photo.png`) whose filename matches **neither** marker — it becomes part
of a processed batch: a `type='live'` record is persisted for it (camera
tag defaulting to 1, queryable provenance NULL per `createDetection`'s key
mismatch), its record is rendered, and its Drive id is marked processed. -/
theorem fallback_ingests_unmatched_filename :
    LiveMonitoringService.hasCameraMarker "photo.png" = false ∧
    sC9.storeRows.map (fun r => r.rowType) = ["live"] ∧
    sC9.storeRows.map (fun r => r.camera) = [some 1] ∧
    sC9.storeRows.map (fun r => r.originDriveId) = [none] ∧
    sC9.detectionHistory.map (fun it => it.id) = ["rec_drive_p1"] ∧
    "p1" ∈ sC9.processedDriveIds := by
  refine ⟨?_, ?_, ?_, ?_, ?_, ?_⟩ <;> decide
